import Mathlib

/-!
Verification of the rocket-config core library against its specification.

The definitions below are a shallow embedding of the Rust sources:
  * `src/core/src/value/number.rs`  — the `Number` / `N` model and its orderings
  * `src/core/src/value/value.rs`   — the `Value` tagged union
  * `src/core/src/configuration.rs` — the file-backed `Configuration` cache
  * `src/core/src/factory.rs`       — the name → Configuration registry

External collaborators (the serde parsers, the standard-library float
formatter, the filesystem) are modelled as explicit parameters, since their
code is not part of this repository.  Rust `RwLock`s are modelled by a value
together with a poisoned flag; stateful methods take and return the state
explicitly.  Machine integers `u64` / `i64` are modelled as `Nat` / `Int`
(the code only compares them, so no overflow arises).
-/

namespace RocketConfig

/-! ## Number model (src/core/src/value/number.rs) -/

/-- A finite `f64` as the embedded code observes it.  The only operations the
repository performs on a float payload are (a) the external standard-library
scientific-notation rendering (Rust format specifier `:e`), used by the
hand-written `Ord for N`, and (b) the numeric order, used by the derived
`PartialOrd`.  We therefore model a finite float by that rendering together
with its (rational) numeric value. -/
structure FloatVal where
  sci : String
  val : ℚ
deriving DecidableEq

/-- `enum N` of number.rs: `PosInt(u64)`, `NegInt(i64)` (always negative),
`Float(f64)` (always finite), in this declaration order. -/
inductive N where
  | PosInt (u : Nat)
  | NegInt (i : Int)
  | Float (f : FloatVal)
deriving DecidableEq

/-- `struct Number` of number.rs: a single field `n : N`. -/
structure Number where
  n : N
deriving DecidableEq

/-- Lexicographic comparison of character lists by code point. -/
def lexCmp : List Char → List Char → Ordering
  | [], [] => .eq
  | [], _ :: _ => .lt
  | _ :: _, [] => .gt
  | a :: as, b :: bs =>
    match compare a b with
    | .eq => lexCmp as bs
    | o => o

/-- Rust `str::cmp`: lexicographic comparison of the UTF-8 bytes, which
coincides with lexicographic comparison of the code points. -/
def strCmp (a b : String) : Ordering :=
  lexCmp a.data b.data

/-- Comparison of rationals, standing in for `f64::partial_cmp` restricted to
finite floats (where it is total and numeric). -/
def ratCmp (a b : ℚ) : Ordering :=
  if a < b then .lt else if a = b then .eq else .gt

/-- The hand-written `impl Ord for N` (number.rs lines 187-235): same-variant
integers compare numerically, floats compare by their scientific-notation
renderings, and across variants PosInt > NegInt > Float. -/
def N.cmp : N → N → Ordering
  | .PosInt a, .PosInt b => compare a b
  | .PosInt _, .NegInt _ => .gt
  | .PosInt _, .Float _ => .gt
  | .NegInt a, .NegInt b => compare a b
  | .NegInt _, .PosInt _ => .lt
  | .NegInt _, .Float _ => .gt
  | .Float a, .Float b => strCmp a.sci b.sci
  | .Float _, .PosInt _ => .lt
  | .Float _, .NegInt _ => .lt

/-- The hand-written `impl Ord for Number` (number.rs lines 178-183):
delegates to the inner `N`. -/
def Number.cmp (a b : Number) : Ordering :=
  N.cmp a.n b.n

/-- The comparison produced by `#[derive(PartialOrd)]` on `N` (number.rs line
12): variants are ordered by declaration order with earlier variants smaller
(PosInt < NegInt < Float), payloads of a common variant compare numerically
(`f64` comparison is total here because the payloads are finite). -/
def N.derivedCmp : N → N → Option Ordering
  | .PosInt a, .PosInt b => some (compare a b)
  | .PosInt _, .NegInt _ => some .lt
  | .PosInt _, .Float _ => some .lt
  | .NegInt _, .PosInt _ => some .gt
  | .NegInt a, .NegInt b => some (compare a b)
  | .NegInt _, .Float _ => some .lt
  | .Float _, .PosInt _ => some .gt
  | .Float _, .NegInt _ => some .gt
  | .Float a, .Float b => some (ratCmp a.val b.val)

/-- The comparison produced by `#[derive(PartialOrd)]` on `Number` (number.rs
line 6): compares the single field `n` with `N`'s derived order. -/
def Number.derivedCmp (a b : Number) : Option Ordering :=
  N.derivedCmp a.n b.n

/-! ## Error model

Modelled from the spec: the file `src/core/src/error.rs` (module `error`,
declared in `src/core/src/lib.rs`) is not among the provided sources; only its
uses appear, as `error::Error::new(kind, description)` and
`error::Error::from(kind)` with kinds `MissingValue`, `FormatError`,
`UnimplementedFormat` and `Other`.  Per the spec's error taxonomy, an error is
a kind together with a human-readable description. -/
inductive ErrorKind where
  | MissingValue
  | FormatError
  | UnimplementedFormat
  | Other
deriving DecidableEq

/-- Modelled from the spec: `error::Error` carries a kind and a description
(`Error::new(kind, description)` in configuration.rs and factory.rs). -/
structure Error where
  kind : ErrorKind
  description : String
deriving DecidableEq

/-- Modelled from the spec: `error::Error::from(kind)` (used by
`Factory::get` / `get_development` for the MissingValue miss) builds an error
from a kind alone; only the kind of such an error is observable in the
claims. -/
def Error.fromKind (k : ErrorKind) : Error :=
  ⟨k, ""⟩

/-- The kind of the error of a failed computation, `none` on success. -/
def errKind {α : Type} : Except Error α → Option ErrorKind
  | .error e => some e.kind
  | .ok _ => none

/-! ## Value model (src/core/src/value/value.rs) -/

/-- `enum Value` of value.rs: Null, Bool, Number, String, Array, Object.  The
`BTreeMap<String, Value>` of the Object variant is modelled as an association
list (its ordering plays no role in the claims). -/
inductive Value where
  | null
  | bool (b : Bool)
  | number (n : Number)
  | string (s : String)
  | array (xs : List Value)
  | object (map : List (String × Value))

/-- Modelled from the spec: the file `src/core/src/value/index.rs` (module
`index`, trait `Index`) is not among the provided sources.  Per spec §4.3 the
capability has exactly two key kinds: string keys, looked up against Object
variants by equality, and integer keys, looked up against Array variants by
position. -/
inductive Index where
  | str (s : String)
  | num (i : Nat)

/-- `Value::get` (value.rs lines 57-59) delegates to the Index capability;
modelled from the spec §4.3: a mismatched variant or an absent key/position
yields no result. -/
def Value.get (v : Value) (i : Index) : Option Value :=
  match i, v with
  | .str key, .object m => m.lookup key
  | .num n, .array xs => xs.get? n
  | _, _ => none

/-! ## Filesystem and lock model -/

/-- A Rust `OsStr` as the embedded code observes it: either valid UTF-8 text
(`to_str` succeeds) or not. -/
inductive OsStr where
  | valid (s : String)
  | invalid
deriving DecidableEq

/-- A filesystem path as the embedded code observes it: whether it names a
regular file, its extension, and its file stem (each absent or possibly
non-UTF-8, mirroring `Path::extension` / `Path::file_stem`). -/
structure FPath where
  isFile : Bool
  extension : Option OsStr
  fileStem : Option OsStr
deriving DecidableEq

/-- A Rust `RwLock`: its contents together with a poisoned flag.  A poisoned
lock fails every `read()` / `write()` attempt. -/
structure Lock (α : Type) where
  poisoned : Bool
  val : α

/-- The external world: the filesystem reads (`std::fs`, result is the file
content or the I/O error's description), the directory listing
(`Path::read_dir`, a listing error or a list of entries each of which may
itself be an error), and the two external parsers composed with the in-repo
`Value::from` conversions (`serde_json::from_str` / `serde_yaml::from_str`
followed by `Value::from`, yielding a `Value` or the parse error's
description). -/
structure Env where
  readFile : FPath → Except String String
  readDir : FPath → Except String (List (Except String FPath))
  parseJson : String → Except String Value
  parseYaml : String → Except String Value

/-! ## Configuration (src/core/src/configuration.rs) -/

/-- `struct Configuration`: a cached parsed value behind one lock and the
source path behind another (the `Arc` sharing layer is immaterial to the
claims; methods take and return the state explicitly). -/
structure Configuration where
  configuration : Lock (Option Value)
  path : Lock FPath

/-- `Configuration::new` (configuration.rs lines 26-32): fresh state, nothing
cached. -/
def Configuration.new (p : FPath) : Configuration :=
  { configuration := ⟨false, none⟩, path := ⟨false, p⟩ }

/-- `Configuration::is_loaded` (configuration.rs lines 40-54): Other-kind
error if the cache lock is poisoned, otherwise whether a value is cached. -/
def Configuration.is_loaded (c : Configuration) : Except Error Bool :=
  if c.configuration.poisoned then
    .error ⟨.Other, "configuration got poisoned"⟩
  else
    .ok c.configuration.val.isSome

/-- `Configuration::read_file` (configuration.rs lines 56-76): an I/O-level
error (modelled by its description) if the path lock is poisoned, otherwise
the result of reading the file. -/
def Configuration.read_file (env : Env) (c : Configuration) : Except String String :=
  if c.path.poisoned then
    .error "path got poisoned"
  else
    env.readFile c.path.val

/-- The first half of `Configuration::deserialize` (configuration.rs lines
78-120), computing `deserialized`: dispatch on the extension text — `"json"`
parses as JSON, `"yml"` or `"yaml"` as YAML (parse errors become Other-kind
errors carrying the parser's description), any other extension is an
UnimplementedFormat error carrying the extension text. -/
def Configuration.parse_content (env : Env) (extension : String) (content : String) :
    Except Error Value :=
  if extension = "json" then
    (env.parseJson content).mapError (fun d => ⟨.Other, d⟩)
  else if extension = "yml" ∨ extension = "yaml" then
    (env.parseYaml content).mapError (fun d => ⟨.Other, d⟩)
  else
    .error ⟨.UnimplementedFormat, "unimplemented format: " ++ extension⟩

/-- The second half of `Configuration::deserialize`: store the parsed value
under the cache lock (an Other-kind error when it is poisoned, mirroring the
`if let Ok(mut configuration)` at line 110). -/
def Configuration.deserialize (env : Env) (c : Configuration)
    (extension : String) (content : String) :
    Configuration × Except Error Unit :=
  match Configuration.parse_content env extension content with
  | .error e => (c, .error e)
  | .ok v =>
    if c.configuration.poisoned then
      (c, .error ⟨.Other, "configuration got poisoned"⟩)
    else
      ({ c with configuration := ⟨false, some v⟩ }, .ok ())

/-- `Configuration::load` (configuration.rs lines 122-170): succeed at once if
already loaded; fail with Other if the path lock is poisoned; fail with
MissingValue (`"no extension available"`) without an extension and with
FormatError (`"extension's format is invalid"`) on a non-UTF-8 extension; map
a read failure to a MissingValue-kind error carrying the I/O description
(the `map_err` at line 157); otherwise deserialize the content. -/
def Configuration.load (env : Env) (c : Configuration) :
    Configuration × Except Error Unit :=
  match c.is_loaded with
  | .error err => (c, .error err)
  | .ok true => (c, .ok ())
  | .ok false =>
    if c.path.poisoned then
      (c, .error ⟨.Other, "path got poisoned"⟩)
    else
      match c.path.val.extension with
      | none => (c, .error ⟨.MissingValue, "no extension available"⟩)
      | some .invalid => (c, .error ⟨.FormatError, "extension's format is invalid"⟩)
      | some (.valid ext) =>
        match c.read_file env with
        | .error d => (c, .error ⟨.MissingValue, d⟩)
        | .ok content => c.deserialize env ext content

/-- `Configuration::get` (configuration.rs lines 172-192): best-effort
`load()` whose result is discarded, then an Other-kind error if the cache lock
is poisoned, otherwise the `Value::get` lookup on the cached value (`none`
when nothing is cached). -/
def Configuration.get (env : Env) (c : Configuration) (index : Index) :
    Configuration × Except Error (Option Value) :=
  let c1 := (c.load env).1
  if c1.configuration.poisoned then
    (c1, .error ⟨.Other, "configuration got poisoned"⟩)
  else
    (c1, .ok (match c1.configuration.val with
              | some v => v.get index
              | none => none))

/-! ## Factory (src/core/src/factory.rs) -/

/-- `is_file_handled` (factory.rs lines 26-46): a regular file whose
extension is exactly one of the OsStr literals `json`, `yml`, `yaml`. -/
def is_file_handled (path : FPath) : Bool :=
  if !path.isFile then
    false
  else
    match path.extension with
    | some extension =>
      extension == .valid "json" || extension == .valid "yml" || extension == .valid "yaml"
    | _ => false

/-- A registry (`BTreeMap<String, Configuration>`), modelled as an
association list; map ordering plays no role in the claims. -/
abbrev Registry := List (String × Configuration)

/-- `BTreeMap::insert`: stores the binding and returns the value previously
bound to the key, if any. -/
def mapInsert : Registry → String → Configuration → Registry × Option Configuration
  | [], k, v => ([(k, v)], none)
  | (k', v') :: rest, k, v =>
    if k' = k then
      ((k, v) :: rest, some v')
    else
      ((k', v') :: (mapInsert rest k v).1, (mapInsert rest k v).2)

/-- The key expression of the `insert` call in `Factory::load_directory`
(factory.rs lines 82-85): `path.file_stem()` is unwrapped with
`expect("expected valid file name")` — the panic branch is unreachable for
handled files, whose extension (hence stem) exists — and a stem that is not
valid UTF-8 is an Other-kind `"invalid file name"` error. -/
def stemToStr (path : FPath) : Except Error String :=
  match path.fileStem.getD .invalid with
  | .valid s => .ok s
  | .invalid => .error ⟨.Other, "invalid file name"⟩

/-- The body of the `for entry in path.read_dir()` loop of
`Factory::load_directory` (factory.rs lines 75-123), one recursive step per
directory entry: an entry-level error becomes an Other-kind error; unhandled
entries are skipped; for a handled file, **if the registry lock's write
acquisition succeeds** the stem is derived, a `Configuration` is constructed
and eagerly loaded (any failure propagates), and the result is inserted,
failing with an Other-kind duplicate-name error when a binding for the stem
already existed — while if the registry lock is poisoned the `if let Ok(..)`
at line 80 has no else branch and the entry is silently skipped. -/
def loadEntries (env : Env) :
    List (Except String FPath) → Lock Registry → Lock Registry × Except Error Unit
  | [], lock => (lock, .ok ())
  | entry :: rest, lock =>
    match entry with
    | .error d => (lock, .error ⟨.Other, d⟩)
    | .ok path =>
      if is_file_handled path then
        if lock.poisoned then
          loadEntries env rest lock
        else
          match stemToStr path with
          | .error e => (lock, .error e)
          | .ok stem =>
            match (Configuration.new path).load env with
            | (_, .error e) => (lock, .error e)
            | (c, .ok _) =>
              match (mapInsert lock.val stem c).2 with
              | some _ =>
                (⟨lock.poisoned, (mapInsert lock.val stem c).1⟩,
                 .error ⟨.Other, "a configuration already exists for '" ++ stem ++ "'"⟩)
              | none => loadEntries env rest ⟨lock.poisoned, (mapInsert lock.val stem c).1⟩
      else
        loadEntries env rest lock

/-- `struct Factory` (factory.rs lines 48-55): the production registry and —
in development builds (`cfg(debug_assertions)`) — the development registry,
each behind its own lock. -/
structure Factory where
  configurations : Lock Registry
  dev_configurations : Lock Registry

/-- `Factory::load_directory` (factory.rs lines 69-125): list the directory
(a listing failure is an Other-kind error) and process its entries in
order. -/
def Factory.load_directory (env : Env) (path : FPath) (lock : Lock Registry) :
    Lock Registry × Except Error Unit :=
  match env.readDir path with
  | .error d => (lock, .error ⟨.Other, d⟩)
  | .ok entries => loadEntries env entries lock

/-- `Factory::get_development` (factory.rs lines 157-173, development builds
only): Other-kind error if the development registry lock is poisoned,
otherwise the configuration bound to the name — a clone of the handle — or a
MissingValue error. -/
def Factory.get_development (f : Factory) (configuration_name : String) :
    Except Error Configuration :=
  if f.dev_configurations.poisoned then
    .error ⟨.Other, "dev_configurations got poisoned"⟩
  else
    match f.dev_configurations.val.lookup configuration_name with
    | some c => .ok c
    | none => .error (Error.fromKind .MissingValue)

/-- `Factory::get` (factory.rs lines 175-199).  The `cfg(debug_assertions)`
block is modelled by the `devBuild` flag: in a development build the
development registry is consulted first and any error there is ignored; then
the production registry answers with the bound configuration — a clone of the
handle — or a MissingValue error, with an Other-kind error if its lock is
poisoned. -/
def Factory.get (f : Factory) (devBuild : Bool) (configuration_name : String) :
    Except Error Configuration :=
  match (if devBuild then (f.get_development configuration_name).toOption else none) with
  | some c => .ok c
  | none =>
    if f.configurations.poisoned then
      .error ⟨.Other, "configurations got poisoned"⟩
    else
      match f.configurations.val.lookup configuration_name with
      | some c => .ok c
      | none => .error (Error.fromKind .MissingValue)

/-- ASCII lowercasing of one character (the only case folding relevant to
extension text). -/
def asciiLowerChar (ch : Char) : Char :=
  if 'A' ≤ ch ∧ ch ≤ 'Z' then Char.ofNat (ch.toNat + 32) else ch

/-- ASCII lowercasing of a string, used to state what "differs only in letter
case" means for an extension. -/
def asciiLower (s : String) : String :=
  ⟨s.data.map asciiLowerChar⟩

/-! ## Concrete fixtures used by witnesses and counterexamples -/

/-- A regular file named like `config.json`. -/
def pJsonW : FPath :=
  ⟨true, some (.valid "json"), some (.valid "config")⟩

/-- A regular file named like `a.unimp` (unrecognized extension). -/
def pUnimpW : FPath :=
  ⟨true, some (.valid "unimp"), some (.valid "a")⟩

/-- A regular file named like `a.toml` (unrecognized extension). -/
def pTomlW : FPath :=
  ⟨true, some (.valid "toml"), some (.valid "a")⟩

/-- A regular file named like `a.JSON` (uppercase extension). -/
def pUpperW : FPath :=
  ⟨true, some (.valid "JSON"), some (.valid "a")⟩

/-- A regular file named like `a.json`. -/
def pAJsonW : FPath :=
  ⟨true, some (.valid "json"), some (.valid "a")⟩

/-- A regular file named like `a.yml`: same stem as `pAJsonW`. -/
def pAYmlW : FPath :=
  ⟨true, some (.valid "yml"), some (.valid "a")⟩

/-- The scanned directory (not a regular file). -/
def pDirW : FPath :=
  ⟨false, none, some (.valid "config")⟩

/-- An environment whose every file read fails with the usual missing-file
I/O description. -/
def envFailW : Env where
  readFile := fun _ => .error "No such file or directory (os error 2)"
  readDir := fun _ => .error "No such file or directory (os error 2)"
  parseJson := fun _ => .error "JSON parse error"
  parseYaml := fun _ => .error "YAML parse error"

/-- An environment where every file exists, holds some readable content, and
parses to `Null`; the directory listing shows `a.json` and `a.yml`. -/
def envOkW : Env where
  readFile := fun _ => .ok "null"
  readDir := fun _ => .ok [.ok pAJsonW, .ok pAYmlW]
  parseJson := fun _ => .ok .null
  parseYaml := fun _ => .ok .null

/-- A poisoned registry lock over an empty registry. -/
def poisonedRegistryW : Lock Registry :=
  ⟨true, []⟩

/-- A development configuration handle for the shadowing witness. -/
def cDevW : Configuration :=
  Configuration.new ⟨true, some (.valid "json"), some (.valid "diesel")⟩

/-- A production configuration handle for the shadowing witness. -/
def cProdW : Configuration :=
  Configuration.new ⟨true, some (.valid "json"), some (.valid "diesel")⟩

/-- A factory whose development and production registries both bind
`diesel`. -/
def fBothW : Factory :=
  ⟨⟨false, [("diesel", cProdW)]⟩, ⟨false, [("diesel", cDevW)]⟩⟩

/-- A factory binding `diesel` only in the production registry. -/
def fProdOnlyW : Factory :=
  ⟨⟨false, [("diesel", cProdW)]⟩, ⟨false, []⟩⟩

/-- A factory with two empty registries. -/
def fEmptyW : Factory :=
  ⟨⟨false, []⟩, ⟨false, []⟩⟩

/-! ## Theorems -/

/-- C1: under `Ord::cmp`, every non-negative-integer `Number` compares
greater than every negative-integer and every float `Number`, every
negative-integer `Number` compares greater than every float `Number`,
regardless of magnitudes; and within the two integer categories `cmp` is the
ordinary numeric comparison of the stored values. -/
theorem number_cmp_category_order :
    ∀ (u u2 : Nat) (i i2 : Int) (f : FloatVal),
      Number.cmp ⟨.PosInt u⟩ ⟨.NegInt i⟩ = .gt ∧
      Number.cmp ⟨.PosInt u⟩ ⟨.Float f⟩ = .gt ∧
      Number.cmp ⟨.NegInt i⟩ ⟨.Float f⟩ = .gt ∧
      Number.cmp ⟨.PosInt u⟩ ⟨.PosInt u2⟩ = compare u u2 ∧
      Number.cmp ⟨.NegInt i⟩ ⟨.NegInt i2⟩ = compare i i2 :=
  fun _ _ _ _ _ => ⟨rfl, rfl, rfl, rfl, rfl⟩

/-- C8: `Ord::cmp` on two float-variant `Number`s is the lexicographic string
comparison of the scientific-notation renderings of the payloads — and not
numeric comparison: for the floats rendered `1e1` (value 10) and `2e0`
(value 2), `cmp` answers less-than although the first value is numerically
greater. -/
theorem number_cmp_float_by_rendering :
    (∀ a b : FloatVal, Number.cmp ⟨.Float a⟩ ⟨.Float b⟩ = strCmp a.sci b.sci) ∧
    Number.cmp ⟨.Float ⟨"1e1", 10⟩⟩ ⟨.Float ⟨"2e0", 2⟩⟩ = .lt ∧
    (2 : ℚ) < 10 :=
  ⟨fun _ _ => rfl, by decide, by norm_num⟩

/-- C10 (code bug): the derived `PartialOrd` on `Number` does not agree with
the hand-written `Ord`.  At `PosInt 0` versus `NegInt (-1)`, `partial_cmp`
answers `Some(Less)` — the derived order follows variant declaration order,
making `PosInt` the least variant — while `cmp` answers `Greater`, so the
`<` / `>` operators contradict `Ord::cmp` on this pair. -/
theorem number_derived_partial_order_disagrees_with_cmp :
    Number.derivedCmp ⟨.PosInt 0⟩ ⟨.NegInt (-1)⟩ = some .lt ∧
    Number.cmp ⟨.PosInt 0⟩ ⟨.NegInt (-1)⟩ = .gt ∧
    Number.derivedCmp ⟨.PosInt 0⟩ ⟨.NegInt (-1)⟩ ≠
      some (Number.cmp ⟨.PosInt 0⟩ ⟨.NegInt (-1)⟩) :=
  ⟨rfl, rfl, by decide⟩

/-! ### Helper lemmas on `Configuration.load` -/

/-- A failing `deserialize` leaves the configuration state untouched. -/
theorem deserialize_error_state (env : Env) (c : Configuration)
    (ext content : String) (e : Error) :
    (c.deserialize env ext content).2 = .error e →
    (c.deserialize env ext content).1 = c := by
  unfold Configuration.deserialize
  cases Configuration.parse_content env ext content with
  | error e' => intro _; rfl
  | ok v =>
    by_cases hp : c.configuration.poisoned
    · simp [hp]
    · simp [hp]

/-- A failing `load` leaves the configuration state untouched. -/
theorem load_error_state (env : Env) (c : Configuration) (e : Error) :
    (c.load env).2 = .error e → (c.load env).1 = c := by
  unfold Configuration.load
  cases hl : c.is_loaded with
  | error err => intro _; rfl
  | ok b =>
    cases b with
    | true => simp
    | false =>
      by_cases hp : c.path.poisoned
      · simp [hp]
      · simp only [hp, Bool.false_eq_true, if_false]
        cases hext : c.path.val.extension with
        | none => intro _; rfl
        | some o =>
          cases o with
          | invalid => intro _; rfl
          | valid ext =>
            cases hr : c.read_file env with
            | error d => intro _; rfl
            | ok content => exact deserialize_error_state env c ext content e

/-- C2: on a `Configuration` whose cached state is absent and whose locks are
intact, a `get(index)` attempted while `load()` fails (for any non-lock
reason) answers `Ok(None)` for every index, leaving the state untouched and
never propagating the load failure. -/
theorem configuration_get_swallows_load_failure (env : Env) (c : Configuration)
    (index : Index) (e : Error)
    (hcache : c.configuration.poisoned = false)
    (hempty : c.configuration.val = none)
    (hpath : c.path.poisoned = false)
    (hfail : (c.load env).2 = .error e) :
    c.get env index = (c, .ok none) := by
  have hstate := load_error_state env c e hfail
  unfold Configuration.get
  simp only [hstate, hcache, Bool.false_eq_true, if_false, hempty]

/-- Witness for C2: a fresh configuration over an existing-looking `.json`
path whose file read fails: `load` fails, `get "parameters"` answers
`Ok(None)`. -/
theorem configuration_get_swallows_load_failure_witness :
    (Configuration.new pJsonW).get envFailW (.str "parameters") =
      (Configuration.new pJsonW, .ok none) :=
  configuration_get_swallows_load_failure envFailW (Configuration.new pJsonW)
    (.str "parameters") ⟨.MissingValue, "No such file or directory (os error 2)"⟩
    rfl rfl rfl rfl

/-- On a fresh-state configuration with intact locks and a valid-text
extension, a failing file read makes `load` fail with a MissingValue-kind
error carrying the I/O description (the `map_err` at configuration.rs line
157), whatever the extension text is. -/
theorem load_fresh_read_error (env : Env) (c : Configuration) (ext d : String)
    (hcache : c.configuration.poisoned = false)
    (hempty : c.configuration.val = none)
    (hpath : c.path.poisoned = false)
    (hext : c.path.val.extension = some (.valid ext))
    (hread : env.readFile c.path.val = .error d) :
    (c.load env).2 = .error ⟨.MissingValue, d⟩ := by
  unfold Configuration.load Configuration.is_loaded Configuration.read_file
  simp [hcache, hempty, hpath, hext, hread]

/-- On a fresh-state configuration with intact locks, a valid-text extension
other than the exact strings `json`, `yml`, `yaml`, and a readable file,
`load` fails with UnimplementedFormat carrying the extension text. -/
theorem load_fresh_unrecognized_ext (env : Env) (c : Configuration)
    (ext content : String)
    (hcache : c.configuration.poisoned = false)
    (hempty : c.configuration.val = none)
    (hpath : c.path.poisoned = false)
    (hext : c.path.val.extension = some (.valid ext))
    (hj : ext ≠ "json") (hy : ext ≠ "yml") (hya : ext ≠ "yaml")
    (hread : env.readFile c.path.val = .ok content) :
    (c.load env).2 = .error ⟨.UnimplementedFormat, "unimplemented format: " ++ ext⟩ := by
  unfold Configuration.load Configuration.is_loaded Configuration.read_file
    Configuration.deserialize Configuration.parse_content
  simp [hcache, hempty, hpath, hext, hread, hj, hy, hya]

/-- Counterexample to C5: on a fresh configuration over a `.json` path whose
file read fails, `load` does not fail with an Other-kind error — the I/O
failure is reported as MissingValue, not Other. -/
theorem load_read_failure_other_kind_counterexample :
    errKind ((Configuration.new pJsonW).load envFailW).2 = some ErrorKind.MissingValue ∧
    errKind ((Configuration.new pJsonW).load envFailW).2 ≠ some ErrorKind.Other :=
  ⟨rfl, by decide⟩

/-- C5 (amended): on a fresh configuration with intact locks over a path with
a recognized valid-text extension (`json`, `yml` or `yaml`) whose file cannot
be read, `load` fails with a MissingValue-kind error carrying the I/O error's
description — not with an Other-kind error. -/
theorem load_read_failure_is_missing_value_kind (env : Env) (c : Configuration)
    (ext d : String)
    (hcache : c.configuration.poisoned = false)
    (hempty : c.configuration.val = none)
    (hpath : c.path.poisoned = false)
    (hext : c.path.val.extension = some (.valid ext))
    (hrec : ext = "json" ∨ ext = "yml" ∨ ext = "yaml")
    (hread : env.readFile c.path.val = .error d) :
    (c.load env).2 = .error ⟨.MissingValue, d⟩ :=
  load_fresh_read_error env c ext d hcache hempty hpath hext hread

/-- Witness for C5: the missing `.json` file makes `load` fail with the
MissingValue-kind error carrying the I/O description. -/
theorem load_read_failure_is_missing_value_kind_witness :
    ((Configuration.new pJsonW).load envFailW).2 =
      .error ⟨.MissingValue, "No such file or directory (os error 2)"⟩ :=
  load_read_failure_is_missing_value_kind envFailW (Configuration.new pJsonW)
    "json" "No such file or directory (os error 2)" rfl rfl rfl rfl (.inl rfl) rfl

/-- Counterexample to C6: on a fresh configuration over an `a.unimp` path
whose file cannot be read, `load` does not fail with UnimplementedFormat —
the file is read before the format dispatch, so the read failure
(MissingValue-kind) is reported instead. -/
theorem load_unimplemented_format_unreadable_counterexample :
    errKind ((Configuration.new pUnimpW).load envFailW).2 ≠ some ErrorKind.UnimplementedFormat ∧
    errKind ((Configuration.new pUnimpW).load envFailW).2 = some ErrorKind.MissingValue :=
  ⟨by decide, rfl⟩

/-- C6 (amended): on a fresh configuration with intact locks over a path
whose extension is valid text but not one of the exact strings `json`, `yml`,
`yaml`, and whose file is readable, `load` fails with UnimplementedFormat and
description `unimplemented format: <ext>` (when the file cannot be read, the
read failure takes precedence — see the counterexample). -/
theorem load_unimplemented_format_when_readable (env : Env) (c : Configuration)
    (ext content : String)
    (hcache : c.configuration.poisoned = false)
    (hempty : c.configuration.val = none)
    (hpath : c.path.poisoned = false)
    (hext : c.path.val.extension = some (.valid ext))
    (hj : ext ≠ "json") (hy : ext ≠ "yml") (hya : ext ≠ "yaml")
    (hread : env.readFile c.path.val = .ok content) :
    (c.load env).2 = .error ⟨.UnimplementedFormat, "unimplemented format: " ++ ext⟩ :=
  load_fresh_unrecognized_ext env c ext content hcache hempty hpath hext hj hy hya hread

/-- Witness for C6: a readable `a.toml` file: `load` fails with
UnimplementedFormat and description `unimplemented format: toml`. -/
theorem load_unimplemented_format_when_readable_witness :
    ((Configuration.new pTomlW).load envOkW).2 =
      .error ⟨.UnimplementedFormat, "unimplemented format: toml"⟩ :=
  load_unimplemented_format_when_readable envOkW (Configuration.new pTomlW)
    "toml" "null" rfl rfl rfl rfl (by decide) (by decide) (by decide) rfl

/-- Counterexample to C9: on a fresh configuration over a readable `a.JSON`
file, `load` does fail with UnimplementedFormat — the extension comparison is
exact, not lowercase. -/
theorem load_uppercase_extension_counterexample :
    ((Configuration.new pUpperW).load envOkW).2 =
      .error ⟨.UnimplementedFormat, "unimplemented format: JSON"⟩ :=
  rfl

/-- C9 (amended): the format dispatch compares the extension text exactly
(case-sensitively) against `json`, `yml`, `yaml`: on a fresh configuration
with intact locks over a readable file whose valid-text extension lowercases
to a recognized one without being equal to it (e.g. `JSON`), `load` fails
with UnimplementedFormat carrying the extension text, i.e. the format is not
recognized. -/
theorem load_extension_case_sensitive (env : Env) (c : Configuration)
    (ext content : String)
    (hcache : c.configuration.poisoned = false)
    (hempty : c.configuration.val = none)
    (hpath : c.path.poisoned = false)
    (hext : c.path.val.extension = some (.valid ext))
    (hlower : asciiLower ext = "json" ∨ asciiLower ext = "yml" ∨ asciiLower ext = "yaml")
    (hj : ext ≠ "json") (hy : ext ≠ "yml") (hya : ext ≠ "yaml")
    (hread : env.readFile c.path.val = .ok content) :
    (c.load env).2 = .error ⟨.UnimplementedFormat, "unimplemented format: " ++ ext⟩ :=
  load_fresh_unrecognized_ext env c ext content hcache hempty hpath hext hj hy hya hread

/-- Witness for C9: the readable `a.JSON` file is rejected with
UnimplementedFormat although its extension lowercases to `json`. -/
theorem load_extension_case_sensitive_witness :
    ((Configuration.new pUpperW).load envOkW).2 =
      .error ⟨.UnimplementedFormat, "unimplemented format: JSON"⟩ :=
  load_extension_case_sensitive envOkW (Configuration.new pUpperW) "JSON" "null"
    rfl rfl rfl rfl (.inl (by decide)) (by decide) (by decide) (by decide) rfl

/-! ### Factory theorems -/

/-- C3: in a development build, a name bound in the development registry (its
lock intact) resolves to that development configuration; when the development
lookup fails for any reason, the production registry's configuration for the
name is returned; and a name absent from every consulted registry fails with
MissingValue. -/
theorem factory_get_shadowing (f : Factory) (name : String) :
    (∀ c, f.dev_configurations.poisoned = false →
      f.dev_configurations.val.lookup name = some c →
      f.get true name = .ok c) ∧
    (∀ c, (∀ c', f.get_development name ≠ .ok c') →
      f.configurations.poisoned = false →
      f.configurations.val.lookup name = some c →
      f.get true name = .ok c) ∧
    ((∀ c', f.get_development name ≠ .ok c') →
      f.configurations.poisoned = false →
      f.configurations.val.lookup name = none →
      f.get true name = .error (Error.fromKind .MissingValue)) := by
  refine ⟨?_, ?_, ?_⟩
  · intro c hp hl
    unfold Factory.get Factory.get_development
    simp [hp, hl, Except.toOption]
  · intro c hdev hp hl
    have hnone : (f.get_development name).toOption = none := by
      cases h : f.get_development name with
      | error e => rfl
      | ok c' => exact absurd h (hdev c')
    unfold Factory.get
    simp [hnone, hp, hl]
  · intro hdev hp hl
    have hnone : (f.get_development name).toOption = none := by
      cases h : f.get_development name with
      | error e => rfl
      | ok c' => exact absurd h (hdev c')
    unfold Factory.get
    simp [hnone, hp, hl]

/-- Witness for C3: with `diesel` bound in both registries the development
binding wins; with an empty development registry the production binding is
returned; with two empty registries the lookup fails with MissingValue. -/
theorem factory_get_shadowing_witness :
    fBothW.get true "diesel" = .ok cDevW ∧
    fProdOnlyW.get true "diesel" = .ok cProdW ∧
    fEmptyW.get true "diesel" = .error (Error.fromKind .MissingValue) :=
  ⟨(factory_get_shadowing fBothW "diesel").1 cDevW rfl rfl,
   (factory_get_shadowing fProdOnlyW "diesel").2.1 cProdW
     (fun _ h => Except.noConfusion h) rfl rfl,
   (factory_get_shadowing fEmptyW "diesel").2.2
     (fun _ h => Except.noConfusion h) rfl rfl⟩

/-- `mapInsert` reports as previous binding exactly what `lookup` finds. -/
theorem mapInsert_snd (m : Registry) (k : String) (v : Configuration) :
    (mapInsert m k v).2 = m.lookup k := by
  induction m with
  | nil => rfl
  | cons kv rest ih =>
    obtain ⟨k', v'⟩ := kv
    by_cases h : k' = k
    · subst h
      simp [mapInsert, List.lookup]
    · have hbeq : (k == k') = false := beq_eq_false_iff_ne.mpr (Ne.symm h)
      simp [mapInsert, List.lookup, h, ih, hbeq]

/-- After `mapInsert`, the key is bound to the inserted value. -/
theorem mapInsert_lookup_self (m : Registry) (k : String) (v : Configuration) :
    (mapInsert m k v).1.lookup k = some v := by
  induction m with
  | nil => simp [mapInsert, List.lookup]
  | cons kv rest ih =>
    obtain ⟨k', v'⟩ := kv
    by_cases h : k' = k
    · subst h
      simp [mapInsert, List.lookup]
    · have hbeq : (k == k') = false := beq_eq_false_iff_ne.mpr (Ne.symm h)
      simp [mapInsert, List.lookup, h, ih, hbeq]

/-- One scan step over a handled file whose stem is not yet registered:
the configuration is loaded and registered and the scan continues. -/
theorem loadEntries_step_ok (env : Env) (p : FPath)
    (rest : List (Except String FPath)) (lock : Lock Registry) (stem : String)
    (hlock : lock.poisoned = false)
    (hhandled : is_file_handled p = true)
    (hstem : p.fileStem = some (.valid stem))
    (hload : ((Configuration.new p).load env).2 = .ok ())
    (hfresh : lock.val.lookup stem = none) :
    loadEntries env (.ok p :: rest) lock =
      loadEntries env rest
        ⟨lock.poisoned,
         (mapInsert lock.val stem ((Configuration.new p).load env).1).1⟩ := by
  rcases hres : (Configuration.new p).load env with ⟨c1, r1⟩
  rw [hres] at hload
  dsimp only at hload
  subst hload
  conv_lhs => rw [loadEntries.eq_def]
  simp [hhandled, hlock, stemToStr, hstem, hres, mapInsert_snd, hfresh]

/-- One scan step over a handled file whose stem is already registered: the
scan stops with the duplicate-name Other-kind error. -/
theorem loadEntries_step_dup (env : Env) (p : FPath)
    (rest : List (Except String FPath)) (lock : Lock Registry) (stem : String)
    (c0 : Configuration)
    (hlock : lock.poisoned = false)
    (hhandled : is_file_handled p = true)
    (hstem : p.fileStem = some (.valid stem))
    (hload : ((Configuration.new p).load env).2 = .ok ())
    (hdup : lock.val.lookup stem = some c0) :
    (loadEntries env (.ok p :: rest) lock).2 =
      .error ⟨.Other, "a configuration already exists for '" ++ stem ++ "'"⟩ := by
  rcases hres : (Configuration.new p).load env with ⟨c1, r1⟩
  rw [hres] at hload
  dsimp only at hload
  subst hload
  conv_lhs => rw [loadEntries.eq_def]
  simp [hhandled, hlock, stemToStr, hstem, hres, mapInsert_snd, hdup]

/-- C4: a directory scan over two regular files with the same valid stem and
recognized extensions — both individually loadable, the registry lock intact
and the stem not yet registered — fails with the Other-kind duplicate-name
error for that stem. -/
theorem factory_scan_duplicate_stem (env : Env) (dir p1 p2 : FPath)
    (stem : String) (lock : Lock Registry)
    (hdir : env.readDir dir = .ok [.ok p1, .ok p2])
    (hlock : lock.poisoned = false)
    (hfresh : lock.val.lookup stem = none)
    (h1 : is_file_handled p1 = true)
    (h2 : is_file_handled p2 = true)
    (hs1 : p1.fileStem = some (.valid stem))
    (hs2 : p2.fileStem = some (.valid stem))
    (hl1 : ((Configuration.new p1).load env).2 = .ok ())
    (hl2 : ((Configuration.new p2).load env).2 = .ok ()) :
    (Factory.load_directory env dir lock).2 =
      .error ⟨.Other, "a configuration already exists for '" ++ stem ++ "'"⟩ := by
  unfold Factory.load_directory
  rw [hdir]
  show (loadEntries env [Except.ok p1, Except.ok p2] lock).2 = _
  rw [loadEntries_step_ok env p1 [Except.ok p2] lock stem hlock h1 hs1 hl1 hfresh]
  rw [hlock]
  exact loadEntries_step_dup env p2 [] _ stem _ rfl h2 hs2 hl2
    (mapInsert_lookup_self lock.val stem _)

/-- Witness for C4: scanning a directory listing `a.json` and `a.yml`, both
readable and parseable, fails with the duplicate-name error for `a`. -/
theorem factory_scan_duplicate_stem_witness :
    (Factory.load_directory envOkW pDirW ⟨false, []⟩).2 =
      .error ⟨.Other, "a configuration already exists for 'a'"⟩ :=
  factory_scan_duplicate_stem envOkW pDirW pAJsonW pAYmlW "a" ⟨false, []⟩
    rfl rfl rfl rfl rfl rfl rfl rfl rfl

/-- C7 (code bug): while `Configuration`'s operations and `Factory::get` do
fail with Other-kind errors naming the poisoned resource, the directory scan
does not: with a poisoned registry lock it silently skips every discovered
file — the `if let Ok(..)` at factory.rs line 80 has no else branch — and the
scan over a directory containing the handled file `a.json` reports success
while registering nothing. -/
theorem factory_scan_silent_skip_on_poisoned_lock :
    Factory.load_directory envOkW pDirW poisonedRegistryW =
      (poisonedRegistryW, .ok ()) ∧
    is_file_handled pAJsonW = true ∧
    Configuration.is_loaded ⟨⟨true, none⟩, ⟨false, pAJsonW⟩⟩ =
      .error ⟨.Other, "configuration got poisoned"⟩ ∧
    (Configuration.load envOkW ⟨⟨false, none⟩, ⟨true, pAJsonW⟩⟩).2 =
      .error ⟨.Other, "path got poisoned"⟩ ∧
    Factory.get ⟨⟨true, []⟩, ⟨false, []⟩⟩ false "diesel" =
      .error ⟨.Other, "configurations got poisoned"⟩ :=
  ⟨rfl, rfl, rfl, rfl, rfl⟩

end RocketConfig
